import Mathlib

/-!
Verification development for the WKT `MULTIPOLYGON` parser and GeoJSON
feature assembler of `src/backend.py` (functions `parse_wkt_multipolygon`,
lines 329-410, and `create_nta_geojson_full`, lines 413-455).

Strings are embedded as `List Char`.  Python floats are embedded as `ℚ`:
every numeric literal appearing in the data is handled exactly, and the
model of `float()` accepts the usual sign / digits / decimal point /
exponent syntax (special forms such as `inf`, `nan` and digit
underscores are outside the model; no input relevant to the claims uses
them).  A possibly-missing value (`pd.isna`) is embedded as `Option`.

The recursive scanners that embed the regex searches are written with an
explicit fuel argument (initialised to more than the input length, which
each step strictly consumes), so that every definition is a computable
total function.
-/

namespace CycleOps

/-- Python whitespace (the set stripped by `str.strip()` and matched by
the regex class `\s` for ASCII input). -/
def isSpace (c : Char) : Bool :=
  c == ' ' || c == '\t' || c == '\n' || c == '\r' || c == '\x0b' || c == '\x0c'

/-- Drop the characters satisfying `p` from both ends of a list, as
Python's `str.strip(chars)` does. -/
def stripChars (p : Char → Bool) (cs : List Char) : List Char :=
  ((cs.dropWhile p).reverse.dropWhile p).reverse

/-- Python `str.strip()` (no argument): strip whitespace from both ends. -/
def pyStrip (cs : List Char) : List Char :=
  stripChars isSpace cs

/-- A parenthesis character, the set stripped by `.strip('()')` at
backend.py line 369. -/
def isParenChar (c : Char) : Bool :=
  c == '(' || c == ')'

/-- Python `str.strip('()')`. -/
def stripParens (cs : List Char) : List Char :=
  stripChars isParenChar cs

/-- Python `str.split()` (no argument): split on runs of whitespace,
discarding empty chunks. -/
def pySplitWs (cs : List Char) : List (List Char) :=
  (cs.splitOnP isSpace).filter (fun l => !l.isEmpty)

/-- Value of a list of decimal digit characters. -/
def natOfDigits (ds : List Char) : ℕ :=
  ds.foldl (fun a c => a * 10 + (c.toNat - 48)) 0

/-- Value of a decimal literal with integer digits `ip` and fractional
digits `fp` (an integer-only literal avoids rational arithmetic so that
its value reduces by kernel computation). -/
def decimalVal (ip fp : List Char) : ℚ :=
  if fp.isEmpty then (natOfDigits ip : ℚ)
  else (natOfDigits ip : ℚ) + (natOfDigits fp : ℚ) / (10 : ℚ) ^ fp.length

/-- Digit part of a float exponent: at least one digit, consuming the
whole remainder, scaling `base` up or down accordingly. -/
def applyExpDigits (base : ℚ) (neg : Bool) (d : List Char) : Option ℚ :=
  let ds := d.takeWhile Char.isDigit
  if ds.isEmpty then none
  else if !(d.drop ds.length).isEmpty then none
  else if neg then some (base / 10 ^ natOfDigits ds)
  else some (base * 10 ^ natOfDigits ds)

/-- Apply the exponent part of a float literal (everything after `e`/`E`):
an optional sign followed by at least one digit, consuming the whole
remainder. -/
def applyExp (base : ℚ) (t : List Char) : Option ℚ :=
  match t with
  | '+' :: u => applyExpDigits base false u
  | '-' :: u => applyExpDigits base true u
  | u => applyExpDigits base false u

/-- Body of a float literal after the optional sign: integer digits,
optional fractional part, optional exponent; at least one digit must be
present before the exponent, and the whole remainder must be consumed
(so a token such as `"0)"` or `"(2"` is rejected, exactly as Python's
`float()` raises `ValueError` on it). -/
def pyFloatBody (s : List Char) : Option ℚ :=
  let ip := s.takeWhile Char.isDigit
  let r1 := s.drop ip.length
  let fp := match r1 with
    | '.' :: t => t.takeWhile Char.isDigit
    | _ => []
  let r2 := match r1 with
    | '.' :: t => t.drop fp.length
    | _ => r1
  if ip.isEmpty && fp.isEmpty then none
  else
    match r2 with
    | [] => some (decimalVal ip fp)
    | 'e' :: t => applyExp (decimalVal ip fp) t
    | 'E' :: t => applyExp (decimalVal ip fp) t
    | _ => none

/-- Model of Python's `float(token)`: surrounding whitespace is ignored,
then an optional sign and a decimal literal. Returns `none` where
`float()` raises `ValueError`. -/
def pyFloat? (t : List Char) : Option ℚ :=
  match pyStrip t with
  | '+' :: r => pyFloatBody r
  | '-' :: r => (pyFloatBody r).map Neg.neg
  | r => pyFloatBody r

/-- A GeoJSON coordinate as built at backend.py line 380: the 2-element
list `[lon, lat]`. -/
abbrev Coord := List ℚ

/-- A ring: a list of coordinates. -/
abbrev RingCoords := List Coord

/-- A polygon: a list of rings (exterior first, then holes). -/
abbrev PolygonCoords := List RingCoords

/-- Coordinate construction from the whitespace-split tokens of one
comma-separated candidate (backend.py lines 375-382): it contributes a
coordinate exactly when there are at least two tokens and both of the
first two parse as floats; extra tokens are ignored. -/
def coordOfTokens : List (List Char) → Option Coord
  | t0 :: t1 :: _ =>
    match pyFloat? t0, pyFloat? t1 with
    | some lon, some lat => some [lon, lat]
    | _, _ => none
  | _ => none

/-- One comma-separated candidate of a ring string (backend.py lines
373-382): `pair.strip()`, `pair.split()`, then `coordOfTokens`. -/
def parsePair (pair : List Char) : Option Coord :=
  coordOfTokens (pySplitWs (pyStrip pair))

/-- The coordinate loop of backend.py lines 371-382 (also repeated
verbatim at lines 396-406 for the fallback path): split the ring string
on `,` and keep the candidates that parse; failing candidates are
skipped and the loop continues. -/
def parseCoords (ringStr : List Char) : List Coord :=
  (ringStr.splitOn ',').filterMap parsePair

/-! ## Ring Extractor

`re.split(r'\)\s*,\s*\(', poly_content)` at backend.py line 365: split the
polygon group's content at every occurrence of a close-paren, optional
whitespace, comma, optional whitespace, open-paren.  The `\s*` parts are
greedy but deterministic here, because a whitespace character can never
satisfy the following literal `,` or `(`. -/

/-- Match the ring separator `)\s*,\s*(` at the head of the list,
returning the remainder after it. -/
def matchRingSep : List Char → Option (List Char)
  | ')' :: rest =>
    match rest.dropWhile isSpace with
    | ',' :: rest2 =>
      match rest2.dropWhile isSpace with
      | '(' :: rest3 => some rest3
      | _ => none
    | _ => none
  | _ => none

/-- Left-to-right scan splitting at every ring separator.  `acc` holds the
current chunk reversed; each step consumes at least one character, so
fuel equal to the input length never runs out. -/
def splitRingSepAux : ℕ → List Char → List Char → List (List Char)
  | 0, acc, rest => [acc.reverse ++ rest]
  | _, acc, [] => [acc.reverse]
  | fuel + 1, acc, c :: cs =>
    match matchRingSep (c :: cs) with
    | some rest => acc.reverse :: splitRingSepAux fuel [] rest
    | none => splitRingSepAux fuel (c :: acc) cs

/-- The ring split of backend.py line 365. -/
def ringSplit (cs : List Char) : List (List Char) :=
  splitRingSepAux cs.length [] cs

/-- Processing of one polygon group (backend.py lines 362-385): split into
ring candidates, clean each (`.strip().strip('()')`), parse its
coordinates, and retain only rings with at least 3 coordinates. -/
def processGroup (g : List Char) : List RingCoords :=
  ((ringSplit g).map (fun r => parseCoords (stripParens (pyStrip r)))).filter
    (fun c => decide (3 ≤ c.length))

/-! ## Polygon Group Extractor

`re.findall(r'\(\(([^()]+(?:\([^()]*\)[^()]*)*)\)\)', content)` at
backend.py lines 359-360.  The pattern is `((`, then a nonempty run of
non-paren characters, then any number of `(…)` blocks (non-paren inside)
each followed by a non-paren run, then `))`.  Because every quantifier's
character class is disjoint from the literal that follows it,
backtracking can never rescue a failed greedy munch, so the match is
computed by maximal-munch scanning; `findall` scans left to right and
resumes after each match. -/

/-- A character other than `(` and `)`, the class `[^()]`. -/
def nonParen (c : Char) : Bool :=
  c != '(' && c != ')'

/-- Matcher for the part of a polygon-group match after the leading
`((` and the first non-paren run: repeatedly consume `(…)` blocks with
trailing non-paren runs, then require `))`.  `acc` is the group content
matched so far; returns the content and the remainder after `))`.  Each
iteration consumes at least two characters. -/
def matchGroupLoop : ℕ → List Char → List Char → Option (List Char × List Char)
  | 0, _, _ => none
  | fuel + 1, acc, cs =>
    match cs with
    | '(' :: rest =>
      match rest.drop (rest.takeWhile nonParen).length with
      | ')' :: rest2 =>
        matchGroupLoop fuel
          (acc ++ '(' :: rest.takeWhile nonParen ++ ')' :: rest2.takeWhile nonParen)
          (rest2.drop (rest2.takeWhile nonParen).length)
      | _ => none
    | ')' :: ')' :: rest => some (acc, rest)
    | _ => none

/-- Attempt the whole polygon-group pattern at the head of the list:
`((`, a nonempty non-paren run, then `matchGroupLoop`. -/
def matchPolyGroup (cs : List Char) : Option (List Char × List Char) :=
  match cs with
  | '(' :: '(' :: rest =>
    if (rest.takeWhile nonParen).isEmpty then none
    else matchGroupLoop (rest.length + 1) (rest.takeWhile nonParen)
      (rest.drop (rest.takeWhile nonParen).length)
  | _ => none

/-- The `findall` scan: try the pattern at each position, emit the group
content on success and resume after the match, otherwise advance one
character.  Each step consumes at least one character. -/
def findPolyGroupsAux : ℕ → List Char → List (List Char)
  | 0, _ => []
  | _, [] => []
  | fuel + 1, c :: cs =>
    match matchPolyGroup (c :: cs) with
    | some (g, rest) => g :: findPolyGroupsAux fuel rest
    | none => findPolyGroupsAux fuel cs

/-- All polygon-group contents found in the multipolygon body
(backend.py line 360). -/
def findPolyGroups (cs : List Char) : List (List Char) :=
  findPolyGroupsAux cs.length cs

/-! ## Degenerate single-polygon fallback

`re.search(r'\(\(\((.+?)\)\)\)', wkt_string, re.DOTALL)` at backend.py
line 393: find, scanning left to right, a `(((`, then the shortest
nonempty run of characters followed by `)))`. -/

/-- Whether the list starts with `)))`. -/
def tripleClose (cs : List Char) : Bool :=
  match cs with
  | ')' :: ')' :: ')' :: _ => true
  | _ => false

/-- Lazy `(.+?)` against a following `)))`: consume characters one at a
time (at least one) and stop as soon as the remainder starts with
`)))`. -/
def lazyUntilTriple : List Char → List Char → Option (List Char)
  | _, [] => none
  | acc, c :: rest =>
    if tripleClose rest then some (acc.reverse ++ [c])
    else lazyUntilTriple (c :: acc) rest

/-- The `re.search` scan for the fallback pattern: at each position, if
the input starts with `(((` and a lazy body terminated by `)))` exists,
return the body; otherwise advance one character. -/
def findTripleAux : ℕ → List Char → Option (List Char)
  | 0, _ => none
  | fuel + 1, cs =>
    match cs with
    | '(' :: '(' :: '(' :: rest =>
      match lazyUntilTriple [] rest with
      | some u => some u
      | none => findTripleAux fuel ('(' :: '(' :: rest)
    | _ :: rest => findTripleAux fuel rest
    | [] => none

/-- First match of the fallback pattern in the string, if any. -/
def findTriple (cs : List Char) : Option (List Char) :=
  findTripleAux cs.length cs

/-! ## Geometry Builder -/

/-- The keyword checked at backend.py line 345. -/
def mpKeyword : List Char :=
  "MULTIPOLYGON".toList

/-- The anchored outer extraction
`re.match(r'MULTIPOLYGON\s*\(\s*(.+)\s*\)$', wkt_string, re.DOTALL)` at
backend.py line 349, applied to the already-stripped string (so `$` is
end of input).  The literal keyword, a maximal whitespace run and `(`
must come first, and the last character must be `)`; the greedy `(.+)`
then captures everything in between, except that when that text is
entirely whitespace the engine backtracks and the capture is its last
character alone. -/
def outerMatch (s : List Char) : Option (List Char) :=
  if mpKeyword.isPrefixOf s then
    match (s.drop mpKeyword.length).dropWhile isSpace with
    | '(' :: r2 =>
      match r2.reverse with
      | ')' :: a :: arev =>
        if ((a :: arev).reverse.dropWhile isSpace).isEmpty then some [a]
        else some ((a :: arev).reverse.dropWhile isSpace)
      | _ => none
    | _ => none
  else none

/-- The structured path (backend.py lines 355-388): every polygon group
found by the findall, processed into rings, dropping groups that retain
no ring. -/
def structuredPolygons (content : List Char) : List PolygonCoords :=
  (findPolyGroups content).filterMap (fun g =>
    if (processGroup g).isEmpty then none else some (processGroup g))

/-- The fallback path (backend.py lines 391-408): one triple-paren block,
parsed as a single ring of a single polygon, kept only with at least 3
coordinates. -/
def fallbackPolygons (s : List Char) : List PolygonCoords :=
  match findTriple s with
  | some u => if 3 ≤ (parseCoords u).length then [[parseCoords u]] else []
  | none => []

/-- Line 391's `if not polygons:` — use the fallback exactly when the
structured path produced nothing. -/
def structuredOrFallback (content s : List Char) : List PolygonCoords :=
  if (structuredPolygons content).isEmpty then fallbackPolygons s
  else structuredPolygons content

/-- Line 410: `return polygons if polygons else None`. -/
def finishPolygons (ps : List PolygonCoords) : Option (List PolygonCoords) :=
  if ps.isEmpty then none else some ps

/-- `parse_wkt_multipolygon` (backend.py lines 329-410).  The argument is
`none` for a missing (`pd.isna`) value; an empty string is also rejected
by the falsy test at line 340.  Otherwise the string is stripped, must
start with `MULTIPOLYGON`, must match the outer extraction, and the
polygon list is built by the structured path with the degenerate
fallback. -/
def parse_wkt_multipolygon (wkt : Option (List Char)) : Option (List PolygonCoords) :=
  match wkt with
  | none => none
  | some s0 =>
    if s0.isEmpty then none
    else if mpKeyword.isPrefixOf (pyStrip s0) then
      match outerMatch (pyStrip s0) with
      | none => none
      | some content => finishPolygons (structuredOrFallback content (pyStrip s0))
    else none

/-! ## Feature Assembler (backend.py lines 413-455) -/

/-- A GeoJSON geometry as built at backend.py lines 429-438. -/
inductive Geometry where
  | polygon (rings : PolygonCoords)
  | multiPolygon (polys : List PolygonCoords)
deriving DecidableEq

/-- One row of the NTA geometry table: the three property columns and
the WKT text (`none` models a missing value). -/
structure Row where
  ntaName : List Char
  boroName : List Char
  nta2020 : Option (List Char)
  the_geom : Option (List Char)

/-- A GeoJSON feature as built at backend.py lines 440-449. -/
structure Feature where
  geometry : Geometry
  ntaName : List Char
  boroName : List Char
  nta2020 : List Char
  id : List Char
deriving DecidableEq

/-- Geometry-type selection at backend.py lines 429-438: a single parsed
polygon becomes a `Polygon`, anything else wraps the whole list as a
`MultiPolygon`. -/
def selectGeometry : List PolygonCoords → Geometry
  | [p] => Geometry.polygon p
  | ps => Geometry.multiPolygon ps

/-- The per-row body of the loop at backend.py lines 423-450: rows whose
geometry fails to parse yield no feature; otherwise the feature carries
the selected geometry, the three properties (`NTA2020` defaulting to the
empty string via `row.get`) and `id = NTAName`. -/
def buildFeature (r : Row) : Option Feature :=
  match parse_wkt_multipolygon r.the_geom with
  | none => none
  | some polys =>
    some { geometry := selectGeometry polys, ntaName := r.ntaName,
           boroName := r.boroName, nta2020 := r.nta2020.getD [],
           id := r.ntaName }

/-- `create_nta_geojson_full` (backend.py lines 413-455) as a function of
the row list: the features of the rows that parse, in row order. -/
def create_nta_geojson_full (rows : List Row) : List Feature :=
  rows.filterMap buildFeature

/-! ## Concrete inputs used by the claims -/

/-- The exterior-ring-plus-hole example from the spec. -/
def wktC1 : List Char :=
  "MULTIPOLYGON (((0 0, 10 0, 10 10, 0 10, 0 0),(2 2, 4 2, 4 4, 2 4, 2 2)))".toList

/-- The single ring the code actually produces for `wktC1`: the fallback
path merges the exterior ring and the hole, losing the pairs mangled by
the interior parentheses. -/
def ringC1 : RingCoords :=
  [[0, 0], [10, 0], [10, 10], [0, 10], [4, 2], [4, 4], [2, 4], [2, 2]]

/-- A row carrying `wktC1`. -/
def rowC1 : Row :=
  ⟨"Alpha".toList, "Queens".toList, some ("QN01".toList), some wktC1⟩

/-- The two-simple-polygons example from the spec. -/
def wktC2 : List Char :=
  "MULTIPOLYGON (((0 0,1 0,1 1,0 0)),((5 5,6 5,6 6,5 5)))".toList

/-- A row carrying `wktC2`. -/
def rowC2 : Row :=
  ⟨"Beta".toList, "Bronx".toList, some ("BX01".toList), some wktC2⟩

/-- The single-simple-polygon example from the spec. -/
def wktC3 : List Char :=
  "MULTIPOLYGON (((0 0, 1 0, 1 1, 0 1, 0 0)))".toList

/-- A row carrying `wktC3`. -/
def rowC3 : Row :=
  ⟨"Gamma".toList, "Manhattan".toList, some ("MN01".toList), some wktC3⟩

/-- The degenerate two-coordinate-ring example from the spec. -/
def wktC5 : List Char :=
  "MULTIPOLYGON (((0 0, 1 1)))".toList

/-- A row carrying `wktC5`. -/
def rowC5 : Row :=
  ⟨"Delta".toList, "Brooklyn".toList, some ("BK01".toList), some wktC5⟩

/-- A row carrying the non-MULTIPOLYGON example from the spec. -/
def rowC6 : Row :=
  ⟨"Epsilon".toList, "Staten Island".toList, some ("SI01".toList),
    some ("POLYGON ((0 0,1 0,1 1,0 0))".toList)⟩

/-! ## Helper lemmas -/

/-- A successfully built coordinate is a two-element `[lon, lat]` list. -/
theorem coordOfTokens_shape (ts : List (List Char)) (c : Coord)
    (h : coordOfTokens ts = some c) : ∃ x y : ℚ, c = [x, y] := by
  rcases ts with _ | ⟨t0, _ | ⟨t1, rest⟩⟩
  · simp [coordOfTokens] at h
  · simp [coordOfTokens] at h
  · rcases h0 : pyFloat? t0 with _ | x <;> rcases h1 : pyFloat? t1 with _ | y <;>
      simp [coordOfTokens, h0, h1] at h
    exact ⟨x, y, h.symm⟩

/-- Every coordinate produced by the coordinate loop is `[lon, lat]`. -/
theorem parseCoords_shape (r : List Char) :
    ∀ c ∈ parseCoords r, ∃ x y : ℚ, c = [x, y] := by
  intro c hc
  simp only [parseCoords, List.mem_filterMap] at hc
  obtain ⟨pair, _, hp⟩ := hc
  exact coordOfTokens_shape _ _ hp

/-- Every ring retained from a polygon group has at least 3 coordinates,
each of shape `[lon, lat]`. -/
theorem processGroup_ring_prop (g : List Char) :
    ∀ ring ∈ processGroup g,
      3 ≤ ring.length ∧ ∀ c ∈ ring, ∃ x y : ℚ, c = [x, y] := by
  intro ring hr
  simp only [processGroup, List.mem_filter, List.mem_map] at hr
  obtain ⟨⟨r, _, hmap⟩, hlen⟩ := hr
  refine ⟨by simpa using hlen, ?_⟩
  subst hmap
  exact parseCoords_shape _

/-- Every polygon kept by the structured path is nonempty and its rings
satisfy the retained-ring property. -/
theorem structuredPolygons_mem (content : List Char) :
    ∀ poly ∈ structuredPolygons content,
      poly ≠ [] ∧ ∀ ring ∈ poly, 3 ≤ ring.length ∧
        ∀ c ∈ ring, ∃ x y : ℚ, c = [x, y] := by
  intro poly hp
  simp only [structuredPolygons, List.mem_filterMap] at hp
  obtain ⟨g, _, hg⟩ := hp
  by_cases he : (processGroup g).isEmpty = true
  · rw [if_pos he] at hg
    exact absurd hg (by simp)
  · rw [if_neg he] at hg
    have hpg : processGroup g = poly := Option.some.inj hg
    subst hpg
    refine ⟨?_, processGroup_ring_prop g⟩
    intro hnil
    rw [hnil] at he
    exact he rfl

/-- Every polygon produced by the fallback path is nonempty and its rings
satisfy the retained-ring property. -/
theorem fallbackPolygons_mem (s : List Char) :
    ∀ poly ∈ fallbackPolygons s,
      poly ≠ [] ∧ ∀ ring ∈ poly, 3 ≤ ring.length ∧
        ∀ c ∈ ring, ∃ x y : ℚ, c = [x, y] := by
  intro poly hp
  unfold fallbackPolygons at hp
  rcases hf : findTriple s with _ | u <;> simp only [hf] at hp
  · simp at hp
  · by_cases hl : 3 ≤ (parseCoords u).length
    · rw [if_pos hl] at hp
      simp only [List.mem_singleton] at hp
      subst hp
      refine ⟨by simp, ?_⟩
      intro ring hr
      simp only [List.mem_singleton] at hr
      subst hr
      exact ⟨hl, parseCoords_shape u⟩
    · rw [if_neg hl] at hp
      simp at hp

/-- The polygon list built at line 391 satisfies the retained-ring
property no matter which path produced it. -/
theorem structuredOrFallback_mem (content s : List Char) :
    ∀ poly ∈ structuredOrFallback content s,
      poly ≠ [] ∧ ∀ ring ∈ poly, 3 ≤ ring.length ∧
        ∀ c ∈ ring, ∃ x y : ℚ, c = [x, y] := by
  intro poly hp
  unfold structuredOrFallback at hp
  by_cases he : (structuredPolygons content).isEmpty = true
  · rw [if_pos he] at hp
    exact fallbackPolygons_mem s poly hp
  · rw [if_neg he] at hp
    exact structuredPolygons_mem content poly hp

/-- Inversion of line 410: a `some` result is the nonempty polygon
list. -/
theorem finishPolygons_eq_some (l ps : List PolygonCoords)
    (h : finishPolygons l = some ps) : ps = l ∧ l ≠ [] := by
  unfold finishPolygons at h
  by_cases he : l.isEmpty = true
  · rw [if_pos he] at h
    exact absurd h (by simp)
  · rw [if_neg he] at h
    refine ⟨(Option.some.inj h).symm, ?_⟩
    intro hl
    rw [hl] at he
    exact he rfl

/-- Inversion of `parse_wkt_multipolygon`: a `some` result comes from a
present string through the outer match and line 410. -/
theorem parse_some_cases (w : Option (List Char)) (ps : List PolygonCoords)
    (h : parse_wkt_multipolygon w = some ps) :
    ∃ s0 content, w = some s0 ∧
      finishPolygons (structuredOrFallback content (pyStrip s0)) = some ps := by
  rcases w with _ | s0
  · simp [parse_wkt_multipolygon] at h
  · simp only [parse_wkt_multipolygon] at h
    by_cases h0 : s0.isEmpty = true
    · rw [if_pos h0] at h
      exact absurd h (by simp)
    · rw [if_neg h0] at h
      by_cases h1 : mpKeyword.isPrefixOf (pyStrip s0) = true
      · rw [if_pos h1] at h
        rcases hm : outerMatch (pyStrip s0) with _ | content <;> rw [hm] at h
        · exact absurd h (by simp)
        · exact ⟨s0, content, rfl, h⟩
      · rw [if_neg h1] at h
        exact absurd h (by simp)

/-- A `filterMap` result, with each element wrapped back in `some`, is a
sublist of the pointwise-mapped list: surviving elements keep the
relative order of their sources. -/
theorem filterMapMapSomeSub {α β : Type} (f : α → Option β) (l : List α) :
    ((l.filterMap f).map some).Sublist (l.map f) := by
  induction l with
  | nil => simp
  | cons a l ih =>
    cases h : f a with
    | none =>
      simp only [List.filterMap_cons, h, List.map_cons]
      exact List.Sublist.cons _ ih
    | some b =>
      simp only [List.filterMap_cons, h, List.map_cons]
      exact List.Sublist.cons₂ _ ih

/-! ## Claims -/

/-- Claim C1 (code bug): the spec says the input with an exterior ring
and a hole parses as one polygon group with two rings.  In fact the
structured regex cannot match any polygon group whose content contains
a ring separator, so this input goes through the degenerate fallback:
the code returns a `Polygon` with a single 8-coordinate ring that merges
the exterior ring and the hole (dropping the two pairs mangled by the
interior parentheses), not two rings. -/
theorem claim_C1_code_result :
    parse_wkt_multipolygon (some wktC1) = some [[ringC1]] ∧
    (buildFeature rowC1).map Feature.geometry = some (Geometry.polygon [ringC1]) ∧
    ringC1.length = 8 := by
  refine ⟨by decide, by decide, by decide⟩

/-- Claim C3: the single-simple-polygon input parses to exactly one
polygon with one ring of the five written coordinate pairs, in order,
and the feature built from it is a `Polygon` geometry with exactly those
coordinates. -/
theorem claim_C3_simple_polygon :
    parse_wkt_multipolygon (some wktC3) =
      some [[[[0, 0], [1, 0], [1, 1], [0, 1], [0, 0]]]] ∧
    (buildFeature rowC3).map Feature.geometry =
      some (Geometry.polygon [[[0, 0], [1, 0], [1, 1], [0, 1], [0, 0]]]) := by
  refine ⟨by decide, by decide⟩

/-- Claim C8: the geometry parser is total — for every input value
(missing marker, empty string, or arbitrary text) it returns a value,
and in particular the missing marker, the empty string and arbitrary
non-WKT text give `none` rather than an error. -/
theorem claim_C8_total :
    (∀ w : Option (List Char),
      parse_wkt_multipolygon w = none ∨ ∃ ps, parse_wkt_multipolygon w = some ps) ∧
    parse_wkt_multipolygon none = none ∧
    parse_wkt_multipolygon (some []) = none ∧
    parse_wkt_multipolygon (some ("totally not WKT £&@".toList)) = none := by
  refine ⟨?_, rfl, by decide, by decide⟩
  intro w
  rcases h : parse_wkt_multipolygon w with _ | ps
  · exact Or.inl rfl
  · exact Or.inr ⟨ps, rfl⟩

/-- Claim C9: the assembled feature collection never has more features
than input rows, and the surviving features appear in the relative order
of their source rows (each feature's `some` wrapper is a sublist of the
row-wise build results). -/
theorem claim_C9_order (rows : List Row) :
    (create_nta_geojson_full rows).length ≤ rows.length ∧
    ((create_nta_geojson_full rows).map some).Sublist (rows.map buildFeature) :=
  ⟨List.length_filterMap_le _ _, filterMapMapSomeSub buildFeature rows⟩

/-- Claim C2: the geometry type depends only on the count of retained
polygon groups — an unparseable geometry (count 0) yields no feature, a
single group yields a `Polygon` wrapping it, two or more yield a
`MultiPolygon` wrapping all of them in discovery order — and the
two-simple-polygons example parses to exactly two one-ring polygons in
order. -/
theorem claim_C2_type_selection :
    (∀ r : Row, parse_wkt_multipolygon r.the_geom = none → buildFeature r = none) ∧
    finishPolygons [] = none ∧
    (∀ (r : Row) (ps : List PolygonCoords),
      parse_wkt_multipolygon r.the_geom = some ps →
      (ps.length = 1 → ∃ p, ps = [p] ∧
        (buildFeature r).map Feature.geometry = some (Geometry.polygon p)) ∧
      (2 ≤ ps.length →
        (buildFeature r).map Feature.geometry = some (Geometry.multiPolygon ps))) ∧
    parse_wkt_multipolygon (some wktC2) =
      some [[[[0, 0], [1, 0], [1, 1], [0, 0]]], [[[5, 5], [6, 5], [6, 6], [5, 5]]]] := by
  refine ⟨?_, rfl, ?_, by decide⟩
  · intro r h
    simp [buildFeature, h]
  · intro r ps h
    constructor
    · intro h1
      rcases ps with _ | ⟨p, _ | ⟨q, t⟩⟩
      · exact absurd h1 (by decide)
      · exact ⟨p, rfl, by simp [buildFeature, h, selectGeometry]⟩
      · simp at h1
    · intro h2
      rcases ps with _ | ⟨p, _ | ⟨q, t⟩⟩
      · simp at h2
      · simp at h2
      · simp [buildFeature, h, selectGeometry]

/-- Witness for claim C2 at the concrete two-polygon row. -/
theorem claim_C2_witness :
    (buildFeature rowC2).map Feature.geometry =
      some (Geometry.multiPolygon
        [[[[0, 0], [1, 0], [1, 1], [0, 0]]], [[[5, 5], [6, 5], [6, 6], [5, 5]]]]) :=
  (claim_C2_type_selection.2.2.1 rowC2
    [[[[0, 0], [1, 0], [1, 1], [0, 0]]], [[[5, 5], [6, 5], [6, 6], [5, 5]]]]
    (by decide)).2 (by decide)

/-- Claim C4: the coordinate loop visits every comma-separated candidate
independently (failures are dropped and the loop continues — it is
exactly a `filterMap`), a candidate contributes a coordinate exactly
when it has at least two whitespace-separated tokens whose first two
parse as floats, and the coordinate built is `[lon, lat]` from those two
tokens. -/
theorem claim_C4_candidate_iff :
    (∀ ringStr : List Char,
      parseCoords ringStr = (ringStr.splitOn ',').filterMap parsePair) ∧
    (∀ pair : List Char,
      (parsePair pair).isSome = true ↔
        ∃ t0 t1 rest, pySplitWs (pyStrip pair) = t0 :: t1 :: rest ∧
          (pyFloat? t0).isSome = true ∧ (pyFloat? t1).isSome = true) ∧
    (∀ (pair t0 t1 : List Char) (rest : List (List Char)) (lon lat : ℚ),
      pySplitWs (pyStrip pair) = t0 :: t1 :: rest →
      pyFloat? t0 = some lon → pyFloat? t1 = some lat →
      parsePair pair = some [lon, lat]) := by
  refine ⟨fun _ => rfl, ?_, ?_⟩
  · intro pair
    constructor
    · intro h
      unfold parsePair at h
      rcases hs : pySplitWs (pyStrip pair) with _ | ⟨t0, ts⟩
      · rw [hs] at h
        simp [coordOfTokens] at h
      rcases ts with _ | ⟨t1, rest⟩
      · rw [hs] at h
        simp [coordOfTokens] at h
      rw [hs] at h
      refine ⟨t0, t1, rest, rfl, ?_⟩
      rcases h0 : pyFloat? t0 with _ | x <;> rcases h1 : pyFloat? t1 with _ | y <;>
        simp [coordOfTokens, h0, h1] at h ⊢
    · rintro ⟨t0, t1, rest, hs, h0, h1⟩
      unfold parsePair
      rw [hs]
      rcases hx : pyFloat? t0 with _ | x
      · rw [hx] at h0
        simp at h0
      rcases hy : pyFloat? t1 with _ | y
      · rw [hy] at h1
        simp at h1
      simp [coordOfTokens, hx, hy]
  · intro pair t0 t1 rest lon lat hs h0 h1
    unfold parsePair
    rw [hs]
    simp [coordOfTokens, h0, h1]

/-- Witness for claim C4: a candidate with an extra third token still
contributes the coordinate built from its first two tokens. -/
theorem claim_C4_witness :
    parsePair (" 15 2 zzz".toList) = some [15, 2] :=
  claim_C4_candidate_iff.2.2 (" 15 2 zzz".toList) ("15".toList) ("2".toList)
    ["zzz".toList] 15 2 (by decide) (by decide) (by decide)

/-- Claim C5: a ring keeping fewer than 3 coordinates is dropped, a
polygon group retaining no ring is dropped, and when that leaves nothing
the row's feature is omitted — as on the spec's two-coordinate-ring
example, which parses to `none` and contributes no feature. -/
theorem claim_C5_degenerate_ring :
    (∀ (g : List Char) (ring : RingCoords), ring ∈ processGroup g →
      3 ≤ ring.length) ∧
    (∀ (content : List Char) (poly : PolygonCoords),
      poly ∈ structuredPolygons content → poly ≠ []) ∧
    parse_wkt_multipolygon (some wktC5) = none ∧
    create_nta_geojson_full [rowC5] = [] := by
  refine ⟨?_, ?_, by decide, by decide⟩
  · intro g ring hr
    exact (processGroup_ring_prop g ring hr).1
  · intro content poly hp
    exact (structuredPolygons_mem content poly hp).1

/-- Witness for claim C5: a retained ring observed to satisfy the
length bound through the claim's statement. -/
theorem claim_C5_witness :
    3 ≤ ([[(0 : ℚ), 0], [1, 0], [1, 1], [0, 0]] : RingCoords).length :=
  claim_C5_degenerate_ring.1 ("0 0, 1 0, 1 1, 0 0".toList) _ (by decide)

/-- Claim C6: a geometry string whose stripped form does not begin with
the literal `MULTIPOLYGON` parses to `none`, and any row carrying it
yields no feature. -/
theorem claim_C6_non_multipolygon (s : List Char)
    (h : mpKeyword.isPrefixOf (pyStrip s) = false) :
    parse_wkt_multipolygon (some s) = none ∧
    ∀ r : Row, r.the_geom = some s → buildFeature r = none := by
  have hp : parse_wkt_multipolygon (some s) = none := by
    simp only [parse_wkt_multipolygon]
    by_cases h0 : s.isEmpty = true
    · rw [if_pos h0]
    · rw [if_neg h0, if_neg (by simp [h])]
  exact ⟨hp, fun r hr => by simp [buildFeature, hr, hp]⟩

/-- Witness for claim C6 at the spec's `POLYGON` example. -/
theorem claim_C6_witness :
    parse_wkt_multipolygon (some ("POLYGON ((0 0,1 0,1 1,0 0))".toList)) = none ∧
    buildFeature rowC6 = none :=
  ⟨(claim_C6_non_multipolygon _ (by decide)).1,
    (claim_C6_non_multipolygon _ (by decide)).2 rowC6 rfl⟩

/-- Claim C7: when the structured double-paren match yields no polygon
group, the parser falls back to the triple-paren block; a successful
fallback (with at least 3 surviving coordinates) produces exactly one
polygon with exactly one ring, and if the fallback also fails the
geometry is absent. -/
theorem claim_C7_fallback (s0 content : List Char)
    (h0 : s0.isEmpty = false)
    (h1 : mpKeyword.isPrefixOf (pyStrip s0) = true)
    (h2 : outerMatch (pyStrip s0) = some content)
    (h3 : structuredPolygons content = []) :
    (∀ u, findTriple (pyStrip s0) = some u → 3 ≤ (parseCoords u).length →
      parse_wkt_multipolygon (some s0) = some [[parseCoords u]]) ∧
    (findTriple (pyStrip s0) = none → parse_wkt_multipolygon (some s0) = none) := by
  constructor
  · intro u hu hlen
    simp [parse_wkt_multipolygon, h0, h1, h2, structuredOrFallback, h3,
      fallbackPolygons, hu, hlen, finishPolygons]
  · intro hu
    simp [parse_wkt_multipolygon, h0, h1, h2, structuredOrFallback, h3,
      fallbackPolygons, hu, finishPolygons]

/-- Witness for claim C7: a string passing the outer match whose body
contains no polygon group and no triple-paren block parses to `none`. -/
theorem claim_C7_witness :
    parse_wkt_multipolygon (some ("MULTIPOLYGON ((0 0))".toList)) = none :=
  (claim_C7_fallback ("MULTIPOLYGON ((0 0))".toList) ("(0 0)".toList)
    (by decide) (by decide) (by decide) (by decide)).2 (by decide)

/-- Claim C10: every non-absent parse result is a nonempty polygon list
whose polygons each hold at least one ring, whose rings each hold at
least 3 coordinates, and whose coordinates are exactly two-element
`[lon, lat]` lists. -/
theorem claim_C10_invariant (w : Option (List Char)) (ps : List PolygonCoords)
    (h : parse_wkt_multipolygon w = some ps) :
    ps ≠ [] ∧ ∀ poly ∈ ps, poly ≠ [] ∧
      ∀ ring ∈ poly, 3 ≤ ring.length ∧ ∀ c ∈ ring, ∃ x y : ℚ, c = [x, y] := by
  obtain ⟨s0, content, -, hf⟩ := parse_some_cases w ps h
  obtain ⟨hps, hne⟩ := finishPolygons_eq_some _ _ hf
  subst hps
  exact ⟨hne, structuredOrFallback_mem content (pyStrip s0)⟩

/-- Witness for claim C10 at a concrete three-coordinate polygon. -/
theorem claim_C10_witness :
    ([[[[(7 : ℚ), 8], [9, 9], [7, 9]]]] : List PolygonCoords) ≠ [] ∧
    ∀ poly ∈ ([[[[(7 : ℚ), 8], [9, 9], [7, 9]]]] : List PolygonCoords), poly ≠ [] ∧
      ∀ ring ∈ poly, 3 ≤ ring.length ∧ ∀ c ∈ ring, ∃ x y : ℚ, c = [x, y] :=
  claim_C10_invariant (some ("MULTIPOLYGON (((7 8, 9 9, 7 9)))".toList)) _ (by decide)

end CycleOps
